import Mathlib

/-
Shallow embedding of the chess websocket server (src/main.rs, src/ws_handler.rs).
Pure data and per-event handler functions are translated from the Rust source;
the MongoDB store is modelled as the current `Game` record, a store write as a
function on it, and a conditional update (filter `status: "active"`) as an
explicit status test at write time.  Wall-clock readings and formatted
timestamp strings are passed in as parameters (`Wall`).
-/

namespace ChessWs

/-- Prefix test on character lists, used to model Rust `str::contains`. -/
def listPrefOf : List Char → List Char → Bool
  | [], _ => true
  | _ :: _, [] => false
  | a :: as, b :: bs => a == b && listPrefOf as bs

/-- Substring containment, the semantics of Rust `str::contains(&str)`. -/
def strContains (hay needle : String) : Bool :=
  let h := hay.toList
  let n := needle.toList
  (List.range (h.length + 1)).any (fun i => listPrefOf n (h.drop i))

/-- First whitespace-separated token, the semantics of Rust
`str::split_whitespace().next()`. -/
def firstWord (s : String) : Option String :=
  ((s.split Char.isWhitespace).filter (fun t => t ≠ "")).head?

/-- The `Game` document stored in the `games` collection
(struct `Game`, src/ws_handler.rs lines 21-44). -/
structure Game where
  _id : String
  white_player : Option String
  black_player : Option String
  fen : String
  pgn : String
  status : String
  created_at : String
  updated_at : String
  turn : String
  moves : List String
  white_time : Int
  black_time : Int
  last_move_time : String
  increment : Int
  white_time_ms : Int
  black_time_ms : Int
  last_move_timestamp : Int
  increment_ms : Int
  result : String
  draw_offered_by : Option String
  reason : Option String
deriving DecidableEq

/-- One entry of the `Connections` registry
(struct `PlayerConnection`, src/ws_handler.rs lines 182-189); the outbound
sink is modelled by addressing messages to the connection's username. -/
structure Conn where
  id : String
  game_id : String
  username : String
  color : String
deriving DecidableEq

/-- Wall-clock inputs of one handler invocation: `current_timestamp_ms()`,
`chrono::Utc::now().to_rfc3339()` and the `%Y.%m.%d` date string. -/
structure Wall where
  nowMs : Int
  rfc : String
  ymd : String
deriving DecidableEq

/-- Outbound protocol events (enum `ServerMessage`, src/ws_handler.rs
lines 95-180); chat events are omitted as no modelled handler emits them. -/
inductive ServerMsg where
  | GameNotFound (message : String)
  | GameJoined (game_id color : String) (opponent : Option String)
      (fen pgn turn : String) (moves : List String)
      (white_time black_time increment : Int)
  | GameFull (message : String)
  | OpponentJoined (username : String)
  | GameResigned (username winner : String)
  | MoveMade (mfrom mto fen pgn by_username turn : String)
      (white_time_ms black_time_ms : Int)
  | Err (message : String)
  | TimeUpdate (white_time_ms black_time_ms : Int)
  | GameCompleted (game_id : String) (white_player black_player : Option String)
      (fen pgn : String) (moves : List String) (result status : String)
      (winner : Option String) (reason : String)
      (time_control increment : Int) (white_time_left black_time_left : Int)
  | DrawOffered (by_username : String)
  | DrawDeclined (by_username : String)
deriving DecidableEq

/-- Result of one handler invocation: the game record after the handler's
store writes, whether any store write was issued, and the outbound messages
as (recipient username, message) pairs. -/
structure StepResult where
  game : Game
  wrote : Bool
  msgs : List (String × ServerMsg)
deriving DecidableEq

/-- Connections currently registered for a game (the
`conn.game_id == game_id` filter used by every broadcast loop). -/
def gameConns (conns : List Conn) (gid : String) : List Conn :=
  conns.filter (fun c => c.game_id == gid)

/-- Broadcast one message to every connection of a game. -/
def broadcastAll (conns : List Conn) (gid : String) (m : ServerMsg) :
    List (String × ServerMsg) :=
  (gameConns conns gid).map (fun c => (c.username, m))

/-- `get_game_result_info` (src/ws_handler.rs lines 1172-1216): normalize a
free-form result text into an outcome token and a winner identity. -/
def get_game_result_info (result_str : String)
    (white_player black_player : Option String) : String × Option String :=
  if strContains result_str "abandoned" then
    match firstWord result_str with
    | some username =>
        if white_player == some username then ("0-1", black_player)
        else ("1-0", white_player)
    | none => ("*", none)
  else if strContains result_str "resigned" then
    match firstWord result_str with
    | some username =>
        if white_player == some username then ("0-1", black_player)
        else ("1-0", white_player)
    | none => ("*", none)
  else if strContains result_str "time" then
    if strContains result_str "White wins" then ("1-0", white_player)
    else if strContains result_str "Black wins" then ("0-1", black_player)
    else ("*", none)
  else if strContains result_str "checkmate" then
    if strContains result_str "White wins" then ("1-0", white_player)
    else if strContains result_str "Black wins" then ("0-1", black_player)
    else ("*", none)
  else if strContains result_str "stalemate" || strContains result_str "draw" then
    ("1/2-1/2", none)
  else if result_str == "1-0" then ("1-0", white_player)
  else if result_str == "0-1" then ("0-1", black_player)
  else ("*", none)

/-- The lowercased-result reason classification inside `send_completed_game`
(src/ws_handler.rs lines 1268-1285). -/
def completionReason (g : Game) : String :=
  let result_lower := g.result.toLower
  if strContains result_lower "time" || g.reason == some "timeout" then "timeout"
  else if strContains result_lower "resigned" then "resignation"
  else if strContains result_lower "checkmate" then "checkmate"
  else if strContains result_lower "stalemate" then "stalemate"
  else if strContains result_lower "draw" || g.reason == some "Draw" then "draw"
  else if strContains result_lower "abandonment" || strContains result_lower "abandoned" then
    "abandonment"
  else "unknown"

/-- `construct_complete_pgn` (src/ws_handler.rs lines 1219-1248). -/
def construct_complete_pgn (white_player black_player : Option String)
    (result base_pgn : String) (time_control increment : Int)
    (date : String) : String :=
  let time_control_str := toString time_control ++ "+" ++ toString increment
  "[Event \"Casual Game\"]\n" ++
  "[Site \"chessdream.vercel.app\"]\n" ++
  "[Date \"" ++ date ++ "\"]\n" ++
  "[White \"" ++ white_player.getD "?" ++ "\"]\n" ++
  "[Black \"" ++ black_player.getD "?" ++ "\"]\n" ++
  "[Result \"" ++ result ++ "\"]\n" ++
  "[WhiteElo \"1200\"]\n" ++
  "[BlackElo \"1200\"]\n" ++
  "[TimeControl \"" ++ time_control_str ++ "\"]\n" ++
  "[Variant \"Standard\"]\n" ++
  "\n" ++ base_pgn ++ " " ++ result

/-- The `GameCompleted` message built by `send_completed_game`
(src/ws_handler.rs lines 1251-1317). -/
def send_completed_game (date : String) (g : Game) : ServerMsg :=
  let ri := get_game_result_info g.result g.white_player g.black_player
  let reason := completionReason g
  let new_pgn := construct_complete_pgn g.white_player g.black_player ri.1
    g.pgn g.white_time g.increment date
  ServerMsg.GameCompleted g._id g.white_player g.black_player g.fen new_pgn
    g.moves ri.1 g.status ri.2 reason g.white_time g.increment
    g.white_time_ms g.black_time_ms

/-- The opponent-as-winner computation at the head of `handle_resign`
(src/ws_handler.rs lines 1035-1039). -/
def resignWinner (username : String) (g : Game) : Option String :=
  if g.white_player == some username then g.black_player else g.white_player

/-- `handle_resign` (src/ws_handler.rs lines 1025-1078): for any existing
game, regardless of its status, write status=completed with result
"{username} resigned" (an unconditional `update_one` on `_id` alone), then
send `GameResigned` followed by `GameCompleted` to every connection of the
game. -/
def handle_resign (w : Wall) (username : String) (conns : List Conn)
    (g : Game) : StepResult :=
  let winner := resignWinner username g
  let result := username ++ " resigned"
  let updated := { g with status := "completed", result := result, updated_at := w.rfc }
  let resignMsg := ServerMsg.GameResigned username (winner.getD "")
  { game := updated
    wrote := true
    msgs := (gameConns conns g._id).flatMap (fun c =>
      [(c.username, resignMsg), (c.username, send_completed_game w.ymd updated)]) }

/-- `handle_game_over` (src/ws_handler.rs lines 950-984): unconditional
write of status=completed and the result text, then `GameCompleted` to every
connection of the game. -/
def handle_game_over (w : Wall) (result : String) (conns : List Conn)
    (g : Game) : StepResult :=
  let updated := { g with status := "completed", result := result, updated_at := w.rfc }
  { game := updated
    wrote := true
    msgs := broadcastAll conns g._id (send_completed_game w.ymd updated) }

/-- `check_time_out` (src/ws_handler.rs lines 1089-1169): `g` is the
in-memory game the caller holds, `store` the current stored record; the
completion write is a `find_one_and_update` filtered on `status: "active"`,
modelled by testing `store.status` at write time. -/
def check_time_out (w : Wall) (conns : List Conn) (g store : Game) : StepResult :=
  if g.status ≠ "active" then { game := store, wrote := false, msgs := [] }
  else
    let elapsed_ms := w.nowMs - g.last_move_timestamp
    let rem := if g.turn == "white"
      then (g.white_time_ms - elapsed_ms, g.black_time_ms)
      else (g.white_time_ms, g.black_time_ms - elapsed_ms)
    if rem.1 ≤ 0 ∨ rem.2 ≤ 0 then
      let result := if rem.1 ≤ 0 then "Black wins on time" else "White wins on time"
      if store.status = "active" then
        let updated := { store with
          status := "completed", result := result, pgn := g.pgn,
          updated_at := w.rfc,
          white_time_ms := max rem.1 0, black_time_ms := max rem.2 0 }
        { game := updated
          wrote := true
          msgs := (gameConns conns g._id).flatMap (fun c =>
            [(c.username, ServerMsg.TimeUpdate (max rem.1 0) (max rem.2 0)),
             (c.username, send_completed_game w.ymd updated)]) }
      else { game := store, wrote := false, msgs := [] }
    else { game := store, wrote := false, msgs := [] }

/-- One iteration of the polling loop in `start_time_monitor`
(src/ws_handler.rs lines 1648-1718): `g` is the freshly-read record, `store`
the record at write time (the `status: "active"` filter of the
`find_one_and_update`).  The second component is whether the loop keeps
polling.  The source also stores a `winner` field that the `Game` struct
itself does not carry; it is dropped here. -/
def time_monitor_tick (w : Wall) (conns : List Conn) (g store : Game) :
    StepResult × Bool :=
  if g.status ≠ "active" then ({ game := store, wrote := false, msgs := [] }, false)
  else
    let elapsed_ms := w.nowMs - g.last_move_timestamp
    let rem := if g.turn == "white"
      then (g.white_time_ms - elapsed_ms, g.black_time_ms)
      else (g.white_time_ms, g.black_time_ms - elapsed_ms)
    if rem.1 ≤ 0 ∨ rem.2 ≤ 0 then
      let result := if rem.1 ≤ 0 then "0-1" else "1-0"
      if store.status = "active" then
        let updated := { store with
          status := "completed", result := result, reason := some "timeout",
          updated_at := w.rfc,
          white_time_ms := max rem.1 0, black_time_ms := max rem.2 0 }
        ({ game := updated
           wrote := true
           msgs := broadcastAll conns g._id (send_completed_game w.ymd updated) }, false)
      else ({ game := store, wrote := false, msgs := [] }, false)
    else ({ game := store, wrote := false, msgs := [] }, true)

/-- `handle_abandonment` (src/ws_handler.rs lines 471-541): both the initial
`find_one` and the `update_one` are filtered on `status: "active"`, modelled
by one test of `store.status`.  The `winner` field written to the store has
no counterpart in the `Game` struct and is dropped. -/
def handle_abandonment (w : Wall) (username : String) (conns : List Conn)
    (store : Game) : StepResult :=
  if store.status = "active" then
    let result_message := username ++ " abandoned"
    let updated := { store with
      status := "completed", result := result_message,
      reason := some "abandonment", updated_at := w.rfc }
    { game := updated
      wrote := true
      msgs := broadcastAll conns store._id (send_completed_game w.ymd updated) }
  else { game := store, wrote := false, msgs := [] }

/-- `handle_draw_offer` (src/ws_handler.rs lines 1319-1358). -/
def handle_draw_offer (w : Wall) (username : String) (conns : List Conn)
    (g : Game) : StepResult :=
  if g.status ≠ "active" then { game := g, wrote := false, msgs := [] }
  else
    let updated := { g with draw_offered_by := some username, updated_at := w.rfc }
    { game := updated
      wrote := true
      msgs := ((gameConns conns g._id).filter (fun c => c.username ≠ username)).map
        (fun c => (c.username, ServerMsg.DrawOffered username)) }

/-- `handle_draw_accept` (src/ws_handler.rs lines 1361-1400): guarded only by
a pending offer from someone other than the accepter; the completion write
carries no status condition. -/
def handle_draw_accept (w : Wall) (username : String) (conns : List Conn)
    (g : Game) : StepResult :=
  if g.draw_offered_by ≠ none ∧ g.draw_offered_by ≠ some username then
    let updated := { g with
      status := "completed", result := "Draw by agreement",
      draw_offered_by := none, updated_at := w.rfc }
    { game := updated
      wrote := true
      msgs := broadcastAll conns g._id (send_completed_game w.ymd updated) }
  else { game := g, wrote := false, msgs := [] }

/-- `handle_draw_decline` (src/ws_handler.rs lines 1402-1436): clears the
draw-offer field and stamps `updated_at` with an unconditional `update_one`
— no check that an offer was pending — and sends `DrawDeclined` to every
other connection of the game. -/
def handle_draw_decline (w : Wall) (username : String) (conns : List Conn)
    (g : Game) : StepResult :=
  let updated := { g with draw_offered_by := none, updated_at := w.rfc }
  { game := updated
    wrote := true
    msgs := ((gameConns conns g._id).filter (fun c => c.username ≠ username)).map
      (fun c => (c.username, ServerMsg.DrawDeclined username)) }

/-- The terminal-condition report of the external rules engine for one
position (the `shakmaty` calls `is_checkmate` / `is_stalemate` /
`is_insufficient_material` on the parsed FEN); `none` models a FEN that
fails to parse into a position. -/
structure PosEval where
  checkmate : Bool
  stalemate : Bool
  insufficient : Bool
deriving DecidableEq

/-- The in-place game mutation of an accepted move (src/ws_handler.rs lines
791-812): append the move, replace fen/pgn, flip the turn, subtract elapsed
time from the mover's clock (floored at zero), credit the increment when the
move list after the append is longer than one, and stamp
`last_move_timestamp`. -/
def applyMoveUpdate (nowMs : Int) (mfrom mto pgn fen : String) (g0 : Game) : Game :=
  let g := { g0 with
    moves := g0.moves ++ [mfrom ++ mto], fen := fen, pgn := pgn,
    turn := if g0.turn == "white" then "black" else "white" }
  let elapsed_ms := nowMs - g.last_move_timestamp
  let g :=
    if g.turn == "black" then
      let wt := max (g.white_time_ms - elapsed_ms) 0
      let wt := if g.moves.length > 1 then wt + g.increment_ms else wt
      { g with white_time_ms := wt }
    else
      let bt := max (g.black_time_ms - elapsed_ms) 0
      let bt := if g.moves.length > 1 then bt + g.increment_ms else bt
      { g with black_time_ms := bt }
  { g with last_move_timestamp := nowMs }

/-- `handle_move` (src/ws_handler.rs lines 758-877): no-op unless the game is
active, the slot of the side to move is held by the requesting username, and
the FEN parses (`posEval` is the rules-engine report for the new position).
On acceptance: apply the move and clock update, persist, broadcast
`MoveMade`, then either run `handle_game_over` with the computed terminal
result text or fall through to `check_time_out`. -/
def handle_move (w : Wall) (username mfrom mto pgn fen : String)
    (posEval : Option PosEval) (conns : List Conn) (g : Game) : StepResult :=
  if g.status ≠ "active" then { game := g, wrote := false, msgs := [] }
  else if (g.turn = "white" ∧ g.white_player ≠ some username) ∨
          (g.turn = "black" ∧ g.black_player ≠ some username) then
    { game := g, wrote := false, msgs := [] }
  else
    match posEval with
    | none => { game := g, wrote := false, msgs := [] }
    | some pos =>
      let updated := { applyMoveUpdate w.nowMs mfrom mto pgn fen g with
        updated_at := w.rfc }
      let moveMsg := ServerMsg.MoveMade mfrom mto updated.fen updated.pgn
        username updated.turn updated.white_time_ms updated.black_time_ms
      let moveMsgs := broadcastAll conns g._id moveMsg
      let game_result :=
        if pos.checkmate then
          some ((if updated.turn == "white" then "Black" else "White") ++
            " wins by checkmate")
        else if pos.stalemate then some "Draw by stalemate"
        else if pos.insufficient then some "Draw by insufficient material"
        else none
      match game_result with
      | some result =>
        let after := handle_game_over w result conns updated
        { game := after.game, wrote := true, msgs := moveMsgs ++ after.msgs }
      | none =>
        let after := check_time_out w conns updated updated
        { game := after.game, wrote := true, msgs := moveMsgs ++ after.msgs }

/-- `DisconnectionInfo` (src/ws_handler.rs lines 237-243). -/
structure DisconnectionInfo where
  username : String
  game_id : String
  disconnect_time : Int
  reconnect_window : Int
deriving DecidableEq

/-- The `DISCONNECTED_PLAYERS` map keyed by username. -/
abbrev DMap := List (String × DisconnectionInfo)

def dmapLookup (m : DMap) (u : String) : Option DisconnectionInfo :=
  List.lookup u m

def dmapRemove (m : DMap) (u : String) : DMap :=
  m.filter (fun p => p.1 ≠ u)

/-- The insert-if-absent step of `handle_player_disconnection`
(src/ws_handler.rs lines 417-463); the Bool is whether a fresh record was
inserted (and hence a one-shot abandonment timer armed). -/
def recordDisconnect (nowMs : Int) (m : DMap) (username game_id : String) :
    DMap × Bool :=
  if (dmapLookup m username).isSome then (m, false)
  else ((username, ⟨username, game_id, nowMs, 15000⟩) :: m, true)

/-- The record re-check performed when the armed abandonment timer fires
(src/ws_handler.rs lines 437-449): abandon only if a record for this
username is still present and still references the same game, removing it;
otherwise do nothing. -/
def timerFire (m : DMap) (username game_id : String) : DMap × Bool :=
  match dmapLookup m username with
  | some info =>
      if info.game_id == game_id then (dmapRemove m username, true) else (m, false)
  | none => (m, false)

/-- The whole firing of the abandonment timer (src/ws_handler.rs lines
434-457): re-check the record, and only when it is still owed call
`handle_abandonment` on the current stored game. -/
def abandonTimerStep (w : Wall) (conns : List Conn) (m : DMap)
    (username game_id : String) (store : Game) : DMap × StepResult :=
  match timerFire m username game_id with
  | (m2, true) => (m2, handle_abandonment w username conns store)
  | (m2, false) => (m2, { game := store, wrote := false, msgs := [] })

/-- The reconnection cleanup at the head of `handle_join_game`
(src/ws_handler.rs lines 556-564): remove the disconnection record when the
joining player has one for this same game. -/
def reconnectCleanup (m : DMap) (username game_id : String) : DMap :=
  match dmapLookup m username with
  | some info => if info.game_id == game_id then dmapRemove m username else m
  | none => m

/-- The background task kinds the join path can spawn.  In the source the
only task ever spawned by `handle_join_game` is `start_game_timer`
(src/ws_handler.rs line 653); `start_time_monitor`, the periodic timeout
poller, has no call site anywhere in the repository. -/
inductive SpawnedTask where
  | gameTimer
deriving DecidableEq

/-- Result of one `handle_join_game` invocation. -/
structure JoinResult where
  dmap : DMap
  game : Option Game
  wrote : Bool
  connInsert : Option Conn
  msgs : List (String × ServerMsg)
  spawned : Option SpawnedTask
deriving DecidableEq

/-- `send_game_state` (src/ws_handler.rs lines 702-729). -/
def send_game_state (color : String) (g : Game) : ServerMsg :=
  let opponent :=
    if color == "white" then g.black_player
    else if color == "black" then g.white_player
    else none
  ServerMsg.GameJoined g._id color opponent g.fen g.pgn g.turn g.moves
    g.white_time g.black_time g.increment

/-- `notify_opponent` (src/ws_handler.rs lines 731-756): look the opponent up
by username in the connection registry and send `OpponentJoined` only if they
are connected. -/
def notify_opponent (g : Game) (username : String) (conns : List Conn) :
    List (String × ServerMsg) :=
  let opp := if g.white_player == some username then g.black_player else g.white_player
  match opp with
  | some o =>
      match conns.find? (fun c => c.username == o) with
      | some _ => [(o, ServerMsg.OpponentJoined username)]
      | none => []
  | none => []

/-- The slot-assignment update of `handle_join_game` for a waiting game
(src/ws_handler.rs lines 608-625): seat the player, and activate the game if
the other slot is already taken. -/
def joinAssignUpdate (w : Wall) (color username : String) (g : Game) : Game :=
  if color == "white" then
    { g with
      white_player := some username,
      status := if g.black_player.isSome then "active" else "waiting",
      updated_at := w.rfc }
  else
    { g with
      black_player := some username,
      status := if g.white_player.isSome then "active" else "waiting",
      updated_at := w.rfc }

/-- `handle_join_game` (src/ws_handler.rs lines 543-700).  `g?` is the
`find_one` result for `game_id`.  The `time_control` and `increment`
parameters of the request are carried in the signature exactly as in the
source, where the function body never reads them. -/
def handle_join_game (w : Wall) (game_id username : String)
    (time_control increment : Int) (connection_id : String)
    (conns : List Conn) (m0 : DMap) (g? : Option Game) : JoinResult :=
  let m := reconnectCleanup m0 username game_id
  match g? with
  | none =>
      { dmap := m, game := none, wrote := false, connInsert := none,
        msgs := [(username, ServerMsg.GameNotFound
          ("Game " ++ game_id ++ " not found"))],
        spawned := none }
  | some game =>
    if game.status = "completed" then
      { dmap := m, game := some game, wrote := false, connInsert := none,
        msgs := [(username, send_completed_game w.ymd game)], spawned := none }
    else if game.status = "active" ∨ game.status = "waiting" then
      let is_white := game.white_player == some username
      let is_black := game.black_player == some username
      if game.status = "active" ∧ ¬ is_white ∧ ¬ is_black then
        { dmap := m, game := some game, wrote := false, connInsert := none,
          msgs := [(username, ServerMsg.GameFull
            "This game is already in progress")],
          spawned := none }
      else if game.status = "waiting" then
        let colorOpt :=
          if game.white_player == none then some "white"
          else if game.black_player == none then some "black"
          else none
        match colorOpt with
        | none =>
            { dmap := m, game := some game, wrote := false, connInsert := none,
              msgs := [(username, ServerMsg.GameFull "Game is already full")],
              spawned := none }
        | some color =>
            let updated := joinAssignUpdate w color username game
            let newConn : Conn := ⟨connection_id, game_id, username, color⟩
            let conns2 := newConn :: conns.filter (fun c => c.username ≠ username)
            { dmap := m, game := some updated, wrote := true,
              connInsert := some newConn,
              msgs := (username, send_game_state color updated) ::
                notify_opponent updated username conns2,
              spawned := if updated.status = "active"
                then some SpawnedTask.gameTimer else none }
      else
        let color := if is_white then "white" else "black"
        { dmap := m, game := some game, wrote := false,
          connInsert := some ⟨connection_id, game_id, username, color⟩,
          msgs := [(username, send_game_state color game)], spawned := none }
    else
      { dmap := m, game := some game, wrote := false, connInsert := none,
        msgs := [(username, ServerMsg.GameNotFound "Invalid game status")],
        spawned := none }

/-- The effect of `start_game_timer` once its two-second sleep elapses
(src/ws_handler.rs lines 1721-1757): stamp `last_move_timestamp`, and send a
`TimeUpdate` with the stored clocks.  It is a one-shot task: it never polls
again and never touches `status`. -/
def start_game_timer_step (w : Wall) (conns : List Conn) (g : Game) : StepResult :=
  let updated := { g with last_move_timestamp := w.nowMs, updated_at := w.rfc }
  { game := updated
    wrote := true
    msgs := broadcastAll conns g._id (ServerMsg.TimeUpdate g.white_time_ms g.black_time_ms) }

/-- `create_game` (src/main.rs lines 267-293): the document inserted for a
new game. -/
def create_game (time_control increment : Int) (game_id : String)
    (w : Wall) : Game :=
  { _id := game_id
    white_player := none
    black_player := none
    fen := "rnbqkbnr/pppppppp/8/8/8/8/PPPPPPPP/RNBQKBNR w KQkq - 0 1"
    pgn := ""
    status := "waiting"
    created_at := w.rfc
    updated_at := w.rfc
    turn := "white"
    moves := []
    white_time := time_control
    black_time := time_control
    last_move_time := w.rfc
    increment := increment
    white_time_ms := time_control * 1000
    black_time_ms := time_control * 1000
    last_move_timestamp := w.nowMs
    increment_ms := increment * 1000
    result := ""
    draw_offered_by := none
    reason := none }

/-- The six clock-configuration fields of a game record: seconds remaining
per side, increment in seconds, milliseconds remaining per side, increment
in milliseconds. -/
def timeFields (g : Game) : Int × Int × Int × Int × Int × Int :=
  (g.white_time, g.black_time, g.increment,
   g.white_time_ms, g.black_time_ms, g.increment_ms)

/-! Concrete fixtures used to evaluate the handlers at specific inputs. -/

/-- A fixed wall-clock reading: 10 seconds after timestamp 0. -/
def wallX : Wall := { nowMs := 10000, rfc := "T1", ymd := "2026.01.01" }

/-- An active match between alice (white) and bob (black), 300s + 5s
clocks, no moves yet, clock started at timestamp 0. -/
def gActive : Game :=
  { _id := "abc1234567"
    white_player := some "alice"
    black_player := some "bob"
    fen := "rnbqkbnr/pppppppp/8/8/8/8/PPPPPPPP/RNBQKBNR w KQkq - 0 1"
    pgn := ""
    status := "active"
    created_at := "T0"
    updated_at := "T0"
    turn := "white"
    moves := []
    white_time := 300
    black_time := 300
    last_move_time := "T0"
    increment := 5
    white_time_ms := 300000
    black_time_ms := 300000
    last_move_timestamp := 0
    increment_ms := 5000
    result := ""
    draw_offered_by := none
    reason := none }

/-- A completed match: alice won by checkmate. -/
def gDone : Game :=
  { gActive with status := "completed", result := "White wins by checkmate" }

/-- The active match right after white's first move: black to move, one
move recorded. -/
def gAfterWhiteMove : Game :=
  { gActive with turn := "black", moves := ["e2e4"] }

/-- A waiting match in which only the white slot is taken. -/
def gWaiting : Game :=
  { gActive with status := "waiting", black_player := none }

/-- An active match whose white clock has run out at `wallX` (1 second
remaining, 10 seconds elapsed since clock start). -/
def gExpired : Game := { gActive with white_time_ms := 1000 }

/-- A rules-engine report with no terminal condition. -/
def peQuiet : PosEval := { checkmate := false, stalemate := false, insufficient := false }

/-- alice's and bob's registered connections for the fixture match. -/
def connsAB : List Conn :=
  [⟨"c-alice", "abc1234567", "alice", "white"⟩,
   ⟨"c-bob", "abc1234567", "bob", "black"⟩]

/-! Helper lemmas shared by the claim theorems. -/

/-- A username with no entry in an association list is untouched by the
remove-by-username filter. -/
theorem filter_ne_of_lookup_none (u : String) :
    ∀ m : DMap, dmapLookup m u = none → dmapRemove m u = m := by
  intro m
  induction m with
  | nil => intro _; rfl
  | cons p m ih =>
      obtain ⟨k, v⟩ := p
      intro h
      rw [dmapLookup, List.lookup] at h
      by_cases hk : u == k
      · rw [hk] at h
        exact absurd h (by simp)
      · have hkf : (u == k) = false := by
          simpa using hk
        rw [hkf] at h
        have hne : k ≠ u := by
          intro e
          subst e
          simp at hkf
        have htail : dmapRemove m u = m := ih h
        simp only [dmapRemove, List.filter_cons, ne_eq, hne, not_false_eq_true,
          decide_not] at htail ⊢
        simp [hne, htail]

/-- `handle_join_game` always leaves the disconnection map exactly as the
reconnection cleanup at its head does. -/
theorem handle_join_game_dmap (w : Wall) (game_id username : String)
    (tc inc : Int) (cid : String) (conns : List Conn) (m0 : DMap)
    (g? : Option Game) :
    (handle_join_game w game_id username tc inc cid conns m0 g?).dmap =
      reconnectCleanup m0 username game_id := by
  unfold handle_join_game
  cases g? with
  | none => rfl
  | some game =>
      dsimp only
      split
      · rfl
      · split
        · split
          · rfl
          · split
            · split
              · rfl
              · rfl
            · rfl
        · rfl

/-- The slot-assignment update touches no clock-configuration field. -/
theorem joinAssignUpdate_timeFields (w : Wall) (color username : String)
    (g : Game) : timeFields (joinAssignUpdate w color username g) = timeFields g := by
  unfold joinAssignUpdate
  split <;> rfl

/-! Claim theorems. -/

/-- Claim C3, counterexample: on black's first move (the second recorded
move of the game) the increment IS credited to black's clock — black's new
clock is the elapsed-adjusted 290000 ms plus the full increment — refuting
the claim that the increment is never credited on the first move by either
side. -/
theorem C3_black_first_move_gets_increment :
    gAfterWhiteMove.moves = ["e2e4"] ∧
    gAfterWhiteMove.black_player = some "bob" ∧
    (handle_move wallX "bob" "e7" "e5" "p2" "f2" (some peQuiet) []
      gAfterWhiteMove).game.black_time_ms =
      290000 + gAfterWhiteMove.increment_ms := by
  exact ⟨rfl, rfl, by decide⟩

/-- Claim C3, amended: the applied-move clock update credits the increment
to the mover from the second recorded move of the game onward — so it is
withheld only on white's very first move, and black's first move (the second
recorded move) is already credited. -/
theorem C3_increment_from_second_recorded_move : ∀ (now : Int) (mf mt p fen : String) (g : Game),
    (applyMoveUpdate now mf mt p fen g).white_time_ms =
      (if g.turn = "white"
       then max (g.white_time_ms - (now - g.last_move_timestamp)) 0 +
            (if 1 ≤ g.moves.length then g.increment_ms else 0)
       else g.white_time_ms) ∧
    (applyMoveUpdate now mf mt p fen g).black_time_ms =
      (if g.turn = "white"
       then g.black_time_ms
       else max (g.black_time_ms - (now - g.last_move_timestamp)) 0 +
            (if 1 ≤ g.moves.length then g.increment_ms else 0)) := by
  intro now mf mt p fen g
  unfold applyMoveUpdate
  by_cases h : g.turn = "white" <;>
    by_cases hl : 1 ≤ g.moves.length <;>
      simp [h, hl, Nat.lt_iff_add_one_le]

/-- Claim C5, counterexample: the result text "Draw by agreement" recorded
by the draw-accept path is NOT normalized to the draw token — the
case-sensitive substring matching of `get_game_result_info` misses the
capitalized "Draw" and falls through to the unknown token "*". -/
theorem C5_draw_agreement_not_normalized :
    (handle_draw_accept wallX "bob" []
      { gActive with draw_offered_by := some "alice" }).game.result =
      "Draw by agreement" ∧
    get_game_result_info "Draw by agreement" (some "alice") (some "bob") =
      ("*", none) ∧
    ("*" : String) ≠ "1/2-1/2" := by
  exact ⟨rfl, rfl, by decide⟩

/-- Claim C5, amended: of the three draw result texts the controller itself
records, only "Draw by stalemate" is normalized to the draw token 1/2-1/2;
"Draw by agreement" and "Draw by insufficient material" fall through to the
unknown token "*".  The winner identity is absent for all three.  The last
two conjuncts pin the texts to the paths that record them: a stalemate move
and an insufficient-material move store exactly these texts. -/
theorem C5_draw_texts_normalization : ∀ wp bp : Option String,
    get_game_result_info "Draw by stalemate" wp bp = ("1/2-1/2", none) ∧
    get_game_result_info "Draw by agreement" wp bp = ("*", none) ∧
    get_game_result_info "Draw by insufficient material" wp bp = ("*", none) ∧
    (handle_move wallX "alice" "e2" "e4" "p" "f"
      (some { checkmate := false, stalemate := true, insufficient := false })
      [] gActive).game.result = "Draw by stalemate" ∧
    (handle_move wallX "alice" "e2" "e4" "p" "f"
      (some { checkmate := false, stalemate := false, insufficient := true })
      [] gActive).game.result = "Draw by insufficient material" := by
  intro wp bp
  exact ⟨rfl, rfl, rfl, rfl, rfl⟩

/-- Claim C7, counterexample: with no draw offer pending, DeclineDraw still
issues its store write (clearing the already-empty offer field and stamping
`updated_at`) and still sends `DrawDeclined` to the opponent — it is not a
no-op. -/
theorem C7_decline_without_offer_still_acts :
    gActive.draw_offered_by = none ∧
    (handle_draw_decline wallX "bob" connsAB gActive).wrote = true ∧
    (handle_draw_decline wallX "bob" connsAB gActive).game.updated_at ≠
      gActive.updated_at ∧
    (handle_draw_decline wallX "bob" connsAB gActive).msgs =
      [("alice", ServerMsg.DrawDeclined "bob")] := by
  exact ⟨rfl, rfl, by decide, rfl⟩

/-- Claim C7, amended: DeclineDraw unconditionally clears the draw-offer
field and stamps `updated_at` (a store write) and sends `DrawDeclined` to
every other connected session of the match; it behaves identically whether
or not an offer was pending, so it is never a no-op. -/
theorem C7_decline_unconditional : ∀ (w : Wall) (u : String) (conns : List Conn)
    (g : Game) (x : Option String),
    (handle_draw_decline w u conns g).wrote = true ∧
    (handle_draw_decline w u conns g).game.draw_offered_by = none ∧
    (handle_draw_decline w u conns g).game.updated_at = w.rfc ∧
    (handle_draw_decline w u conns g).msgs =
      (handle_draw_decline w u conns { g with draw_offered_by := x }).msgs ∧
    ((handle_draw_decline w u conns g).msgs.all (fun pr =>
      decide (pr.2 = ServerMsg.DrawDeclined u) && decide (pr.1 ≠ u))) = true := by
  intro w u conns g x
  refine ⟨rfl, rfl, rfl, rfl, ?_⟩
  simp only [handle_draw_decline, List.all_eq_true, List.mem_map]
  rintro pr ⟨c, hc, rfl⟩
  have hcu : c.username ≠ u := by
    have := List.of_mem_filter hc
    simpa using this
  simp [hcu]

/-- Claim C1, counterexample: the resign path's completion write is NOT
guarded by status=active — on an already-completed match it still writes,
overwriting the stored result — so the write is not a no-op although the
match is no longer active. -/
theorem C1_resign_writes_on_completed :
    gDone.status = "completed" ∧
    (handle_resign wallX "zoe" [] gDone).wrote = true ∧
    (handle_resign wallX "zoe" [] gDone).game.result = "zoe resigned" ∧
    gDone.result ≠ "zoe resigned" := by
  exact ⟨rfl, rfl, rfl, by decide⟩

/-- Claim C1, amended: only the timeout-detection paths (the on-move check
and the background poller tick) and the abandonment resolver guard their
status=completed store writes with the expected prior status=active, and for
those paths the write is a no-op unless the match is still active; the
resign, game-over, and draw-accept paths write status=completed
unconditionally (resign and game-over for every existing match, draw-accept
whenever an offer from another player is pending), regardless of the match's
prior status. -/
theorem C1_only_timeout_and_abandonment_guarded :
    ∀ (w : Wall) (conns : List Conn) (g store : Game) (u r : String),
    store.status ≠ "active" →
    check_time_out w conns g store = { game := store, wrote := false, msgs := [] } ∧
    (time_monitor_tick w conns g store).1 =
      { game := store, wrote := false, msgs := [] } ∧
    handle_abandonment w u conns store =
      { game := store, wrote := false, msgs := [] } ∧
    (handle_game_over w r conns store).wrote = true ∧
    (handle_game_over w r conns store).game.status = "completed" ∧
    (handle_resign w u conns store).wrote = true ∧
    (handle_resign w u conns store).game.status = "completed" ∧
    (handle_draw_accept w u conns
      { store with draw_offered_by := some (u ++ "x") }).wrote = true := by
  intro w conns g store u r hs
  have hux : u ++ "x" ≠ u := by
    intro h
    have h2 := congrArg String.length h
    simp [String.length_append] at h2
    exact absurd h2 (by decide)
  refine ⟨?_, ?_, ?_, rfl, rfl, rfl, rfl, ?_⟩
  · simp only [check_time_out]
    split_ifs <;> simp_all
  · simp only [time_monitor_tick]
    split_ifs <;> simp_all
  · simp only [handle_abandonment]
    split_ifs <;> simp_all
  · unfold handle_draw_accept
    rw [if_pos]
    constructor
    · simp
    · simpa using hux

/-- Claim C1, witness for the amended theorem at a concrete completed
match. -/
theorem C1_guarded_witness :
    check_time_out wallX [] gDone gDone =
      { game := gDone, wrote := false, msgs := [] } ∧
    (time_monitor_tick wallX [] gDone gDone).1 =
      { game := gDone, wrote := false, msgs := [] } ∧
    handle_abandonment wallX "zoe" [] gDone =
      { game := gDone, wrote := false, msgs := [] } ∧
    (handle_game_over wallX "r" [] gDone).wrote = true ∧
    (handle_game_over wallX "r" [] gDone).game.status = "completed" ∧
    (handle_resign wallX "zoe" [] gDone).wrote = true ∧
    (handle_resign wallX "zoe" [] gDone).game.status = "completed" ∧
    (handle_draw_accept wallX "zoe" []
      { gDone with draw_offered_by := some ("zoe" ++ "x") }).wrote = true :=
  C1_only_timeout_and_abandonment_guarded wallX [] gDone gDone "zoe" "r" (by decide)

/-- Claim C2, counterexample: a GameOver event on an already-completed match
still mutates the record, overwriting its stored result — completed matches
are not read-only. -/
theorem C2_game_over_mutates_completed :
    gDone.status = "completed" ∧
    (handle_game_over wallX "overwritten" [] gDone).wrote = true ∧
    (handle_game_over wallX "overwritten" [] gDone).game.result = "overwritten" ∧
    gDone.result ≠ "overwritten" := by
  exact ⟨rfl, rfl, rfl, by decide⟩

/-- Claim C2, amended: a completed match is read-only under Move, OfferDraw,
JoinGame, and AcceptDraw-with-no-pending-offer; but Resign, GameOver,
DeclineDraw, and AcceptDraw with a stale pending offer from another player
still mutate a completed match record. -/
theorem C2_completed_readonly_only_some_paths : ∀ g : Game,
    g.status = "completed" →
    (∀ (w : Wall) (u mf mt p fen : String) (pe : Option PosEval) (conns : List Conn),
      handle_move w u mf mt p fen pe conns g = { game := g, wrote := false, msgs := [] }) ∧
    (∀ (w : Wall) (u : String) (conns : List Conn),
      handle_draw_offer w u conns g = { game := g, wrote := false, msgs := [] }) ∧
    (∀ (w : Wall) (u : String) (conns : List Conn),
      g.draw_offered_by = none →
      handle_draw_accept w u conns g = { game := g, wrote := false, msgs := [] }) ∧
    (∀ (w : Wall) (gid u : String) (tc inc : Int) (cid : String)
      (conns : List Conn) (m : DMap),
      (handle_join_game w gid u tc inc cid conns m (some g)).wrote = false ∧
      (handle_join_game w gid u tc inc cid conns m (some g)).game = some g) := by
  intro g hs
  have hne : g.status ≠ "active" := by
    rw [hs]
    decide
  refine ⟨?_, ?_, ?_, ?_⟩
  · intro w u mf mt p fen pe conns
    unfold handle_move
    rw [if_pos hne]
  · intro w u conns
    unfold handle_draw_offer
    rw [if_pos hne]
  · intro w u conns hoffer
    unfold handle_draw_accept
    rw [if_neg]
    simp [hoffer]
  · intro w gid u tc inc cid conns m
    simp only [handle_join_game]
    rw [if_pos hs]
    exact ⟨rfl, rfl⟩

/-- Claim C2, witness for the amended theorem: the concrete completed match
is untouched by a Move and by a join. -/
theorem C2_completed_readonly_witness :
    handle_move wallX "alice" "e2" "e4" "p" "f" (some peQuiet) [] gDone =
      { game := gDone, wrote := false, msgs := [] } ∧
    (handle_join_game wallX "abc1234567" "zoe" 300 5 "c-z" [] [] (some gDone)).wrote
      = false :=
  ⟨(C2_completed_readonly_only_some_paths gDone rfl).1 wallX "alice" "e2" "e4" "p" "f"
      (some peQuiet) [],
   ((C2_completed_readonly_only_some_paths gDone rfl).2.2.2 wallX "abc1234567" "zoe"
      300 5 "c-z" [] []).1⟩

/-- Claim C4, code-bug evidence: when bob's join fills both slots of the
waiting fixture match, the game becomes active but the only task spawned is
the one-shot `start_game_timer` — `start_time_monitor`, the periodic
timeout poller, has no call site in the repository.  On a match whose white
clock has expired, the spawned one-shot timer leaves the status "active"
(it never detects timeouts), whereas one tick of the never-armed poller
would have completed the match with reason timeout. -/
theorem C4_join_arms_one_shot_timer_not_poller :
    (handle_join_game wallX "abc1234567" "bob" 300 5 "c-bob" [] []
      (some gWaiting)).spawned = some SpawnedTask.gameTimer ∧
    ((handle_join_game wallX "abc1234567" "bob" 300 5 "c-bob" [] []
      (some gWaiting)).game.map Game.status) = some "active" ∧
    gExpired.white_time_ms - (wallX.nowMs - gExpired.last_move_timestamp) ≤ 0 ∧
    (start_game_timer_step wallX connsAB gExpired).game.status = "active" ∧
    (time_monitor_tick wallX connsAB gExpired gExpired).1.game.status = "completed" ∧
    (time_monitor_tick wallX connsAB gExpired gExpired).1.game.reason = some "timeout" := by
  exact ⟨rfl, rfl, by decide, rfl, rfl, rfl⟩

/-- Claim C6: a Move event is a complete no-op — record unchanged, no store
write, no outbound message — unless the match is active and the requesting
username holds the player slot of the side whose turn it is (equivalently:
the mover's color equals the current turn and the mover owns that color's
slot), for any well-formed turn value. -/
theorem C6_move_rejected_is_noop : ∀ (w : Wall) (u mf mt p fen : String)
    (pe : Option PosEval) (conns : List Conn) (g : Game),
    (g.turn = "white" ∨ g.turn = "black") →
    ¬ (g.status = "active" ∧
       ((g.turn = "white" ∧ g.white_player = some u) ∨
        (g.turn = "black" ∧ g.black_player = some u))) →
    handle_move w u mf mt p fen pe conns g =
      { game := g, wrote := false, msgs := [] } := by
  intro w u mf mt p fen pe conns g hturn hrej
  unfold handle_move
  split_ifs with h1 h2
  · rfl
  · rfl
  · exfalso
    rw [not_not] at h1
    push_neg at h2
    cases hturn with
    | inl ht => exact hrej ⟨h1, Or.inl ⟨ht, h2.1 ht⟩⟩
    | inr ht => exact hrej ⟨h1, Or.inr ⟨ht, h2.2 ht⟩⟩

/-- Claim C6, witness: bob's Move while it is white's turn (an
out-of-turn request on an active match) leaves the record, the store, and
the outbound queue untouched. -/
theorem C6_move_rejected_witness :
    handle_move wallX "bob" "e2" "e4" "p" "f" (some peQuiet) [] gActive =
      { game := gActive, wrote := false, msgs := [] } :=
  C6_move_rejected_is_noop wallX "bob" "e2" "e4" "p" "f" (some peQuiet) [] gActive
    (Or.inl rfl) (by decide)

/-- A player with no other disconnection record who rejoins removes exactly
the record their disconnect inserted. -/
theorem reconnect_after_disconnect (t : Int) (m : DMap) (u gid : String)
    (hm : dmapLookup m u = none) :
    reconnectCleanup (recordDisconnect t m u gid).1 u gid = m := by
  have h1 : (recordDisconnect t m u gid).1 =
      (u, (⟨u, gid, t, 15000⟩ : DisconnectionInfo)) :: m := by
    simp [recordDisconnect, hm]
  rw [h1]
  have h2 : dmapLookup ((u, (⟨u, gid, t, 15000⟩ : DisconnectionInfo)) :: m) u =
      some ⟨u, gid, t, 15000⟩ := by
    simp [dmapLookup, List.lookup]
  rw [reconnectCleanup, h2]
  simp only [beq_self_eq_true, if_true]
  rw [dmapRemove, List.filter_cons]
  have hhead : (decide (¬ (u = u))) = false := by simp
  simp only [ne_eq, hhead]
  exact filter_ne_of_lookup_none u m hm

/-- When no disconnection record exists for the player, the fired timer
does nothing. -/
theorem timerFire_no_record (m : DMap) (u gid : String)
    (hm : dmapLookup m u = none) : timerFire m u gid = (m, false) := by
  rw [timerFire, hm]

/-- Claim C8: a player with no outstanding disconnection record who
disconnects from a match and rejoins it before the grace window elapses has
their record removed by the join, so when the armed abandonment timer fires
it finds no record, abandons nothing, and mutates neither the disconnection
map nor the match record. -/
theorem C8_reconnect_cancels_abandonment :
    ∀ (w : Wall) (t : Int) (m : DMap) (u gid : String) (tc inc : Int)
      (cid : String) (conns : List Conn) (g? : Option Game) (store : Game),
    dmapLookup m u = none →
    abandonTimerStep w conns
      (handle_join_game w gid u tc inc cid conns
        (recordDisconnect t m u gid).1 g?).dmap u gid store =
      (m, { game := store, wrote := false, msgs := [] }) := by
  intro w t m u gid tc inc cid conns g? store hm
  rw [handle_join_game_dmap, reconnect_after_disconnect t m u gid hm,
    abandonTimerStep, timerFire_no_record m u gid hm]

/-- Claim C8, witness: bob disconnects from the fixture match, rejoins it,
and the firing timer resolves no abandonment and leaves the match record
alone. -/
theorem C8_reconnect_witness :
    abandonTimerStep wallX connsAB
      (handle_join_game wallX "abc1234567" "bob" 300 5 "c-bob" connsAB
        (recordDisconnect 0 [] "bob" "abc1234567").1 (some gActive)).dmap
      "bob" "abc1234567" gActive =
      ([], { game := gActive, wrote := false, msgs := [] }) :=
  C8_reconnect_cancels_abandonment wallX 0 [] "bob" "abc1234567" 300 5 "c-bob"
    connsAB (some gActive) gActive rfl

/-- Claim C9: the `time_control` and `increment` parameters of a JoinGame
request are ignored — the join result does not depend on them at all — and
no join (first join, reconnection, completed-match summary, or rejection)
changes any of the six clock-configuration fields of the match record,
which hold exactly the values set at match creation by `create_game`. -/
theorem C9_join_ignores_time_params :
    ∀ (w : Wall) (gid u : String) (tc1 inc1 tc2 inc2 : Int) (cid : String)
      (conns : List Conn) (m : DMap) (g? : Option Game),
    handle_join_game w gid u tc1 inc1 cid conns m g? =
      handle_join_game w gid u tc2 inc2 cid conns m g? ∧
    (handle_join_game w gid u tc1 inc1 cid conns m g?).game.map timeFields =
      g?.map timeFields ∧
    timeFields (create_game tc1 inc1 gid w) =
      (tc1, tc1, inc1, tc1 * 1000, tc1 * 1000, inc1 * 1000) := by
  intro w gid u tc1 inc1 tc2 inc2 cid conns m g?
  refine ⟨rfl, ?_, rfl⟩
  cases g? with
  | none => rfl
  | some game =>
      simp only [handle_join_game]
      split
      · rfl
      · split
        · split
          · rfl
          · split
            · split
              · rfl
              · simp [joinAssignUpdate_timeFields]
            · rfl
        · rfl

/-- Claim C10: a Resign by a username occupying neither player slot of an
existing match still completes the match (status=completed, result
"{username} resigned", a store write) and computes the white player as the
winner, because any username other than the white player is treated as the
black side. -/
theorem C10_nonparticipant_resign_white_wins :
    ∀ (w : Wall) (u : String) (conns : List Conn) (g : Game),
    g.white_player ≠ some u → g.black_player ≠ some u →
    (handle_resign w u conns g).wrote = true ∧
    (handle_resign w u conns g).game.status = "completed" ∧
    (handle_resign w u conns g).game.result = u ++ " resigned" ∧
    resignWinner u g = g.white_player := by
  intro w u conns g hw hb
  refine ⟨rfl, rfl, rfl, ?_⟩
  have h : ¬ ((g.white_player == some u) = true) := by
    simpa using hw
  rw [resignWinner, if_neg h]

/-- Claim C10, witness: mallory, a stranger to the fixture match, resigns;
the match completes and white (alice) is computed as the winner. -/
theorem C10_nonparticipant_witness :
    (handle_resign wallX "mallory" connsAB gActive).wrote = true ∧
    (handle_resign wallX "mallory" connsAB gActive).game.status = "completed" ∧
    (handle_resign wallX "mallory" connsAB gActive).game.result =
      "mallory" ++ " resigned" ∧
    resignWinner "mallory" gActive = gActive.white_player :=
  C10_nonparticipant_resign_white_wins wallX "mallory" connsAB gActive
    (by decide) (by decide)

end ChessWs








